import Mathlib

/-!
Verification of the poultry-monitoring pipeline (feature engineering,
streaming anomaly detection, explanation preparation, forecasting
sequence construction).

Conventions of the embedding:
* Python float values are modelled exactly by `ℚ`; the transcendental
  operations of the source (`np.exp` in the sigmoid, the square root
  inside the standard deviation) land in `ℝ`.
* The fitted scikit-learn estimators (IsolationForest, classifier,
  scaler) are external model artifacts; they are abstracted as function
  parameters.  An IsolationForest with a fixed `random_state` is a
  deterministic function of its training matrix, so a fitted detector is
  represented by the matrix it was fitted on together with a scoring
  function `scoreOf : trainingMatrix → row → score` standing for
  `score_samples`.
* Python exceptions are modelled with `Except`; a `try/except` block
  that handles the exception internally yields a total function whose
  `.error` channel is never used.
-/

namespace Poultry

/-- A raw sensor reading as produced by the mock stream:
`{temperature_C, humidity_%, ammonia_ppm, ph}`. -/
structure RawReading where
  temperature_C : ℚ
  humidityPct : ℚ
  ammonia_ppm : ℚ
  ph : ℚ
  deriving DecidableEq, Repr

/-- A history row: the four base sensor columns plus the two engineered
columns that the dashboard attaches to each entry
(`ammonia_temp_ratio`, `temp_humidity_interaction`).  The anomaly
detector only ever reads the four base columns. -/
structure Reading where
  temperature_C : ℚ
  humidityPct : ℚ
  ammonia_ppm : ℚ
  ph : ℚ
  ammonia_temp_ratio : ℚ
  temp_humidity_interaction : ℚ
  deriving DecidableEq, Repr

instance : Inhabited Reading := ⟨⟨0, 0, 0, 0, 0, 0⟩⟩

/-- The feature columns used for anomaly detection:
`features = ['temperature_C', 'humidity_%', 'ammonia_ppm', 'ph']`. -/
def anomalyFeatures : List String :=
  ["temperature_C", "humidity_%", "ammonia_ppm", "ph"]

/-- Column access `row[feat]` for the four anomaly-detection columns
(the dataframe column selection `pd.DataFrame(data)[features]`). -/
def featVal (f : String) (r : Reading) : ℚ :=
  if f = "temperature_C" then r.temperature_C
  else if f = "humidity_%" then r.humidityPct
  else if f = "ammonia_ppm" then r.ammonia_ppm
  else if f = "ph" then r.ph
  else 0

/-- The row of a reading in the anomaly-detection matrix `X`. -/
def baseRow (r : Reading) : List ℚ :=
  [r.temperature_C, r.humidityPct, r.ammonia_ppm, r.ph]

/-- Pandas `Series.mean()`: arithmetic mean of a column. -/
def listMean (xs : List ℚ) : ℚ := xs.sum / xs.length

/-- Pandas `Series.std()` squared: pandas uses the Bessel-corrected sample
variance (`ddof = 1`), dividing the sum of squared deviations by
`n - 1`.  (Only evaluated on windows of length ≥ 10.) -/
def sampleVar (xs : List ℚ) : ℚ :=
  (xs.map (fun x => (x - listMean xs) ^ 2)).sum / ((xs.length : ℚ) - 1)

/-- Pandas `Series.std()` itself, a real number. -/
noncomputable def sampleStd (xs : List ℚ) : ℝ :=
  Real.sqrt ((sampleVar xs : ℚ) : ℝ)

/-- Insert into a sorted list (ascending). -/
def insertSorted (x : ℚ) : List ℚ → List ℚ
  | [] => [x]
  | y :: ys => if x ≤ y then x :: y :: ys else y :: insertSorted x ys

/-- Ascending sort, as performed internally by `np.percentile`. -/
def sortQ : List ℚ → List ℚ
  | [] => []
  | x :: xs => insertSorted x (sortQ xs)

/-- Numpy `np.percentile(xs, q)` with the default linear interpolation:
on the ascending sort `s` of `xs`, the virtual position is
`q/100 * (n-1)`; the result interpolates linearly between the two
adjacent order statistics.  (`np.percentile` rejects empty input; the
empty case below is junk and is never reached, the scorer only calls
this on windows of length ≥ 10.) -/
def percentileLinear (xs : List ℚ) (q : ℚ) : ℚ :=
  let s := sortQ xs
  let n := s.length
  if n = 0 then 0
  else
    let pos : ℚ := q / 100 * ((n : ℚ) - 1)
    let i : ℕ := (Int.floor pos).toNat
    let lo := s.getD i 0
    let hi := s.getD (i + 1) lo
    lo + (pos - i) * (hi - lo)

/-- Source `calculate_anomaly_threshold(scores)`:
`np.percentile(scores, 10)` — the 10th percentile, matching the
configured contamination of 0.1. -/
def calculate_anomaly_threshold (scores : List ℚ) : ℚ :=
  percentileLinear scores 10

/-- The score→probability display transform of `detect_anomalies`:
`probability = 1 / (1 + np.exp(-score))`. -/
noncomputable def sigmoid (x : ℚ) : ℝ :=
  1 / (1 + Real.exp (-(x : ℝ)))

/-- The per-feature flag of `detect_anomalies`:
`abs(latest[feat] - X[feat].mean()) > 2 * X[feat].std()` where
`column` is the feature's values over the whole current window and `v`
the latest reading's value. -/
def featFlag (column : List ℚ) (v : ℚ) : Prop :=
  ((|v - listMean column| : ℚ) : ℝ) > 2 * sampleStd column

/-- The session state of the anomaly scorer:
`st.session_state.anomaly_detector` and
`st.session_state.anomaly_threshold`.  A fitted IsolationForest with a
fixed `random_state` is determined by its training matrix, so the
detector slot stores the matrix it was fitted on (`none` = no detector
yet).  `fitGen`/`thresholdGen` are ghost generation counters used only
to state the same-generation invariant; they carry no data the code
branches on. -/
structure DetectorState where
  fittedX : Option (List (List ℚ))
  threshold : ℚ
  fitGen : ℕ
  thresholdGen : ℕ
  deriving Repr

/-- The fresh session: no detector, no threshold yet (the threshold
field defaults to 0; it is only ever read after a fit has stored a real
value, because a missing detector forces a fit). -/
def initState : DetectorState :=
  { fittedX := none, threshold := 0, fitGen := 0, thresholdGen := 0 }

/-- The record returned by `detect_anomalies`:
`{'is_anomaly': score < threshold, 'anomaly_score': probability,
'features': {feat: flag}}`.  `rawScore`, `scoreGen` and `thresholdGen`
are ghost instrumentation recording the raw `score_samples` value of
the latest row and the model generations behind `score` and the
threshold; the published fields do not depend on them. -/
structure AnomalyResult where
  is_anomaly : Bool
  anomaly_score : ℝ
  features : List (String × Prop)
  rawScore : ℚ
  scoreGen : ℕ
  thresholdGen : ℕ

/-- A default result, only used as the `Option.getD` fallback in closed
witness statements. -/
noncomputable def arDefault : AnomalyResult :=
  { is_anomaly := false, anomaly_score := 0, features := [],
    rawScore := 0, scoreGen := 0, thresholdGen := 0 }

/-- Source `detect_anomalies(data, retrain)` from `main.py`.

`scoreOf X row` abstracts `IsolationForest(...).fit(X).score_samples([row])`:
the in-sample score function of the forest fitted on matrix `X`.

Mirrors the source line by line: fewer than 10 rows returns `None`;
otherwise, if `retrain` is requested or no detector exists, a fresh
forest is fitted on the full feature matrix and the threshold is
recomputed from its in-sample scores before anything is scored; the
single latest row is then scored with the currently fitted forest and
compared against the stored threshold; per-feature flags compare the
latest value against the current window's mean and (sample) standard
deviation. -/
noncomputable def detect_anomalies (scoreOf : List (List ℚ) → List ℚ → ℚ)
    (s : DetectorState) (data : List Reading) (retrain : Bool) :
    DetectorState × Option AnomalyResult :=
  if data.length < 10 then (s, none)
  else
    let X : List (List ℚ) := data.map baseRow
    let s' : DetectorState :=
      if retrain || s.fittedX.isNone then
        { fittedX := some X,
          threshold := calculate_anomaly_threshold (X.map (scoreOf X)),
          fitGen := s.fitGen + 1,
          thresholdGen := s.fitGen + 1 }
      else s
    -- the training matrix of the currently fitted forest; the default
    -- branch of `getD` is unreachable (a missing detector forces a fit)
    let trainX : List (List ℚ) := s'.fittedX.getD X
    let latest : Reading := data.getLast?.getD default
    let score : ℚ := scoreOf trainX (baseRow latest)
    (s', some
      { is_anomaly := decide (score < s'.threshold),
        anomaly_score := sigmoid score,
        features := anomalyFeatures.map fun f =>
          (f, featFlag (data.map (featVal f)) (featVal f latest)),
        rawScore := score,
        scoreGen := s'.fitGen,
        thresholdGen := s'.thresholdGen })

/-- The call site in the monitoring loop of `main.py`:
`if len(historical_data) >= 10: detect_anomalies(historical_data,
retrain=len(historical_data) % 10 == 0)`.  Below 10 readings no result
is produced and the scorer state is untouched. -/
noncomputable def observe (scoreOf : List (List ℚ) → List ℚ → ℚ)
    (s : DetectorState) (data : List Reading) :
    DetectorState × Option AnomalyResult :=
  if 10 ≤ data.length then
    detect_anomalies scoreOf s data (decide (data.length % 10 = 0))
  else (s, none)

/-! Feature engineering and the history store of the dashboard
(`dashboard/app.py`, `update_history`). -/

/-- The error raised by a Python scalar float division with a zero
divisor (`ZeroDivisionError`). -/
inductive EngError
  | divisionByZero
  deriving DecidableEq, Repr

/-- The feature-engineering step of `update_history`:
`reading['ammonia_temp_ratio'] = ammonia / temperature` and
`reading['temp_humidity_interaction'] = temperature * humidity / 100`.
The ratio is a Python scalar float division, which raises
`ZeroDivisionError` when the temperature is 0; otherwise the engineered
reading is a pure function of the input. -/
def engineerReading (r : RawReading) : Except EngError Reading :=
  if r.temperature_C = 0 then .error .divisionByZero
  else .ok
    { temperature_C := r.temperature_C,
      humidityPct := r.humidityPct,
      ammonia_ppm := r.ammonia_ppm,
      ph := r.ph,
      ammonia_temp_ratio := r.ammonia_ppm / r.temperature_C,
      temp_humidity_interaction := r.temperature_C * r.humidityPct / 100 }

/-- A history row of the dashboard: the engineered reading plus the
predicted severity label. -/
structure Entry where
  reading : Reading
  severity : String
  deriving Repr

/-- Source `update_history(reading)` from `dashboard/app.py`.

`classify` abstracts `severity_model.predict(scaler.transform(features))`
on the six-feature vector (the fitted scaler and classifier are
external model artifacts).

The whole body of the source function runs inside `try/except`: an
exception raised while engineering is caught in the same function and
reported through `st.error`, and the function returns normally with the
history unchanged.  The return type's `.error` channel models an
exception escaping `update_history` to its caller; no branch produces
it.  The second component is the error message displayed by the
`except` handler, `none` when the reading was appended. -/
def update_history (classify : List ℚ → String)
    (history : List Entry) (r : RawReading) :
    Except String (List Entry × Option String) :=
  match engineerReading r with
  | .error _ => .ok (history, some "Error updating history")
  | .ok er =>
      let features : List ℚ :=
        [er.temperature_C, er.humidityPct, er.ammonia_ppm, er.ph,
         er.ammonia_temp_ratio, er.temp_humidity_interaction]
      .ok (history ++ [{ reading := er, severity := classify features }], none)

/-! Explanation-side feature preparation
(`explain/shap_explain.py`, `PoultryModelExplainer.prepare_features`)
and its caller in `dashboard/app.py` (`main`). -/

/-- Errors raised inside `prepare_features`: a pandas `KeyError` when a
column read during engineering is absent, and the explicit
`ValueError("Missing required features: ...")` of the final check. -/
inductive PrepError
  | keyMissing (k : String)
  | missingFeatures (fs : List String)
  deriving DecidableEq, Repr

/-- A one-row dataframe: an ordered association of column name to
value. -/
abbrev Row : Type := List (String × ℚ)

/-- The `ui_to_internal` rename map of `prepare_features`.  The first
key is written exactly as in the source file, whose bytes spell
`temperature (¬∞C)` (a mojibake of the degree sign); the dashboard
produces the key `temperature (°C)`, which this map therefore does not
match. -/
def uiToInternal : List (String × String) :=
  [("temperature (¬∞C)", "temperature_C"),
   ("humidity (%)", "humidity_%"),
   ("ammonia (ppm)", "ammonia_ppm"),
   ("pH", "ph")]

/-- Step `df.rename(columns=ui_to_internal)`: keys found in the map are
replaced, all others kept. -/
def renameCols (row : Row) : Row :=
  row.map fun kv => ((uiToInternal.lookup kv.1).getD kv.1, kv.2)

/-- Column read `df[k]` on a one-row frame: a pandas `KeyError` when
the column is absent. -/
def getCol (row : Row) (k : String) : Except PrepError ℚ :=
  match row.lookup k with
  | some v => .ok v
  | none => .error (.keyMissing k)

/-- The engineering lines of `prepare_features`:
`df['temp_humidity_interaction'] = df['temperature_C'] * df['humidity_%'] / 100`
then `df['ammonia_temp_ratio'] = df['ammonia_ppm'] / df['temperature_C']`.
Pandas columnwise division does not raise on a zero divisor (it yields
an infinity); the `ℚ` division here is total as well, so this path
never fails on a zero temperature — its only failures are missing
columns. -/
def addEngineered (row : Row) : Except PrepError Row :=
  match getCol row "temperature_C" with
  | .error e => .error e
  | .ok t =>
    match getCol row "humidity_%" with
    | .error e => .error e
    | .ok h =>
      match getCol row "ammonia_ppm" with
      | .error e => .error e
      | .ok a =>
        .ok (row ++
          [("temp_humidity_interaction", t * h / 100),
           ("ammonia_temp_ratio", a / t)])

/-- The `feature_config.json` record:
`{feature_names: [...], engineered_features: [...]}` (an external model
artifact, loaded at startup). -/
structure FeatureConfig where
  feature_names : List String
  engineered_features : List String
  deriving Repr

/-- Source `PoultryModelExplainer.prepare_features(reading)`: rename UI column
names, attach the engineered columns, check that every required
feature is present (else raise `ValueError`), and return the required
features in declared order.  The `except` clause of the source prints
and re-raises, so every failure propagates to the caller. -/
def prepare_features (cfg : FeatureConfig) (reading : Row) :
    Except PrepError Row :=
  match addEngineered (renameCols reading) with
  | .error e => .error e
  | .ok df =>
      let required := cfg.feature_names ++ cfg.engineered_features
      let missing := required.filter fun f => (df.lookup f).isNone
      if missing ≠ [] then .error (.missingFeatures missing)
      else .ok (required.map fun f => (f, (df.lookup f).getD 0))

/-- The external fitted artifacts used by `explain_prediction`: the
scaler, the severity classifier's class probabilities, and the anomaly
detector's score and ±1 prediction. -/
structure ExternalModels where
  scaleRow : List ℚ → List ℚ
  predictProba : List ℚ → List (String × ℚ)
  anomalyScore : List ℚ → ℚ
  anomalyPredict : List ℚ → ℤ

/-- Numpy `np.argmax` over labelled probabilities: the first label attaining
the maximum. -/
def argmaxLabel (ps : List (String × ℚ)) : String :=
  (ps.foldl (fun best p => if best.2 < p.2 then p else best) ("", 0)).1

/-- The record returned by `explain_prediction` (the saved plot image
is an external side effect, not part of the return value). -/
structure Explanation where
  prediction : String
  probabilities : List (String × ℚ)
  is_anomaly : Bool
  anomaly_score : ℚ
  deriving Repr

/-- Source `PoultryModelExplainer.explain_prediction(reading)`: prepare the
features, scale them, classify, and score with the anomaly detector.
Its `except` clause re-raises, so a feature-preparation failure
propagates to the caller unchanged. -/
def explain_prediction (m : ExternalModels) (cfg : FeatureConfig)
    (reading : Row) : Except PrepError Explanation :=
  match prepare_features cfg reading with
  | .error e => .error e
  | .ok X =>
      let xScaled := m.scaleRow (X.map Prod.snd)
      let proba := m.predictProba xScaled
      .ok { prediction := argmaxLabel proba,
            probabilities := proba,
            is_anomaly := decide (m.anomalyPredict xScaled = -1),
            anomaly_score := m.anomalyScore xScaled }

/-- The analysis block of `dashboard/app.py`'s `main`: the
`explain_prediction` call sits inside `try/except`, which on failure
shows an error message and falls through — the explanation for the
cycle is skipped and the surrounding page (and the background
monitoring thread, which this block never touches) keeps running.  The
`.error` channel models an exception escaping the block; no branch
produces it. -/
def analysisBlock (m : ExternalModels) (cfg : FeatureConfig)
    (reading : Row) : Except String (Option Explanation) :=
  match explain_prediction m cfg reading with
  | .ok e => .ok (some e)
  | .error _ => .ok none

/-! Forecasting sequence construction
(`forecast/forecast_date.py`, `PoultryForecaster.create_sequences`). -/

/-- Source `create_sequences(data)`: for `i in
range(len(data) - sequence_length - prediction_length + 1)` collect the
input slice `data[i : i+sequence_length]` and the target slice
`data[i+sequence_length : i+sequence_length+prediction_length]`.  The
range bound is Python integer arithmetic, so a nonpositive bound gives
no pairs. -/
def create_sequences {α : Type} (seqLen predLen : ℕ) (data : List α) :
    List (List α) × List (List α) :=
  let count : ℕ := ((data.length : ℤ) - seqLen - predLen + 1).toNat
  ((List.range count).map fun i => (data.drop i).take seqLen,
   (List.range count).map fun i => (data.drop (i + seqLen)).take predLen)

/-! Concrete fixtures for the closed witness statements. -/

/-- A stand-in external estimator that scores every row 0 (used only to
instantiate the abstract `scoreOf` parameter in witnesses). -/
def constScore : List (List ℚ) → List ℚ → ℚ := fun _ _ => 0

/-- A stand-in external classifier for witnesses. -/
def classifyZero : List ℚ → String := fun _ => "Low"

/-- A representative in-range reading (the spec's scenario reading
`{temperature: 30, humidity: 60, ammonia: 12, pH: 7}`). -/
def sampleReading : Reading := ⟨30, 60, 12, 7, 0, 0⟩

/-- Nine identical readings: below the minimum window. -/
def w9 : List Reading := List.replicate 9 sampleReading

/-- Ten identical readings: the first full window. -/
def w10 : List Reading := List.replicate 10 sampleReading

end Poultry

namespace Poultry

/-! Evaluation helpers for the witness statements: with the constant-0
stand-in estimator, a retraining call computes threshold 0 (the 10th
percentile of identical scores) and scores the latest row 0. -/

lemma insertSorted_zero_replicate (k : ℕ) :
    insertSorted 0 (List.replicate k (0 : ℚ)) = List.replicate (k + 1) 0 := by
  cases k with
  | zero => rfl
  | succ n => simp [List.replicate_succ, insertSorted]

lemma sortQ_replicate_zero (k : ℕ) :
    sortQ (List.replicate k (0 : ℚ)) = List.replicate k 0 := by
  induction k with
  | zero => rfl
  | succ n ih => simp [List.replicate_succ, sortQ, ih, insertSorted_zero_replicate]

lemma getD_replicate_zero (k i : ℕ) :
    (List.replicate k (0 : ℚ)).getD i 0 = 0 := by
  rcases lt_or_ge i k with h | h
  · simp [List.getD_eq_getElem?_getD, List.getElem?_replicate, h]
  · have : (List.replicate k (0 : ℚ)).length ≤ i := by simpa using h
    simp [List.getD_eq_getElem?_getD, List.getElem?_eq_none this]

lemma percentileLinear_replicate_zero (k : ℕ) (q : ℚ) :
    percentileLinear (List.replicate k (0 : ℚ)) q = 0 := by
  unfold percentileLinear
  rw [sortQ_replicate_zero]
  rcases Nat.eq_zero_or_pos k with hk | hk
  · subst hk; simp
  · have hk' : ¬ (List.replicate k (0 : ℚ)).length = 0 := by simpa using hk.ne'
    simp [hk', getD_replicate_zero]

lemma threshold_constScore (X : List (List ℚ)) :
    calculate_anomaly_threshold (X.map (constScore X)) = 0 := by
  have h : X.map (constScore X) = List.replicate X.length (0 : ℚ) := by
    unfold constScore
    exact List.map_const' X 0
  rw [calculate_anomaly_threshold, h, percentileLinear_replicate_zero]

/-- Full evaluation of a retraining `detect_anomalies` call from the
fresh session with the constant-0 estimator. -/
lemma detect_constScore_retrain (data : List Reading) (h : 10 ≤ data.length) :
    detect_anomalies constScore initState data true =
      ({ fittedX := some (data.map baseRow), threshold := 0,
         fitGen := 1, thresholdGen := 1 },
       some { is_anomaly := false, anomaly_score := sigmoid 0,
              features := anomalyFeatures.map fun ft =>
                (ft, featFlag (data.map (featVal ft))
                  (featVal ft (data.getLast?.getD default))),
              rawScore := 0, scoreGen := 1, thresholdGen := 1 }) := by
  have hn : ¬ data.length < 10 := by omega
  have hthr : calculate_anomaly_threshold
      (List.map (constScore (List.map baseRow data) ∘ baseRow) data) = 0 := by
    have hrep : List.map (constScore (List.map baseRow data) ∘ baseRow) data =
        List.replicate data.length (0 : ℚ) := by
      unfold constScore Function.comp
      exact List.map_const' data 0
    rw [hrep]
    unfold calculate_anomaly_threshold
    exact percentileLinear_replicate_zero _ _
  unfold detect_anomalies
  rw [if_neg hn]
  simp [constScore, initState, hthr]

lemma observe_eq_detect_mod10 (f : List (List ℚ) → List ℚ → ℚ)
    (s : DetectorState) (data : List Reading) (h : data.length = 10) :
    observe f s data = detect_anomalies f s data true := by
  simp [observe, h]

/-- Claim C1: a window of fewer than 10 readings yields no anomaly
result — `detect_anomalies` returns `None` for any scorer, state and
retrain flag, its monitoring-loop call site produces no result either,
and the scorer state is left untouched in both cases. -/
theorem C1_insufficient_data (f : List (List ℚ) → List ℚ → ℚ)
    (s : DetectorState) (data : List Reading) (retrain : Bool)
    (h : data.length < 10) :
    detect_anomalies f s data retrain = (s, none) ∧
    observe f s data = (s, none) := by
  refine ⟨?_, ?_⟩
  · simp [detect_anomalies, h]
  · have h' : ¬ (10 ≤ data.length) := by omega
    simp [observe, h']

/-- Witness for C1 at a concrete 9-element window. -/
theorem C1_insufficient_data_witness :
    w9.length < 10 ∧
    detect_anomalies constScore initState w9 false = (initState, none) ∧
    observe constScore initState w9 = (initState, none) := by
  have h : w9.length < 10 := by simp [w9]
  exact ⟨h, (C1_insufficient_data constScore initState w9 false h).1,
    (C1_insufficient_data constScore initState w9 false h).2⟩

/-- Claim C7: for a reading with non-zero temperature, feature
engineering succeeds and returns exactly
`ammonia_temp_ratio = ammonia / temperature` and
`temp_humidity_interaction = temperature * humidity / 100`, with the
base fields carried over unchanged (a pure function of the input). -/
theorem C7_engineered_formulas (r : RawReading) (h : r.temperature_C ≠ 0) :
    engineerReading r = .ok
      { temperature_C := r.temperature_C,
        humidityPct := r.humidityPct,
        ammonia_ppm := r.ammonia_ppm,
        ph := r.ph,
        ammonia_temp_ratio := r.ammonia_ppm / r.temperature_C,
        temp_humidity_interaction := r.temperature_C * r.humidityPct / 100 } := by
  simp [engineerReading, h]

/-- Witness for C7 at the representative reading. -/
theorem C7_engineered_formulas_witness :
    (RawReading.mk 30 60 12 7).temperature_C ≠ 0 ∧
    engineerReading ⟨30, 60, 12, 7⟩ =
      .ok ⟨30, 60, 12, 7, 12 / 30, 30 * 60 / 100⟩ :=
  ⟨by norm_num [RawReading.mk], C7_engineered_formulas ⟨30, 60, 12, 7⟩ (by norm_num [RawReading.mk])⟩

/-- Claim C6 counterexample: at a concrete reading with temperature 0,
the division error is raised inside feature engineering, but
`update_history` returns normally (`.ok`): the exception is caught by
the function's own `try/except` and turned into a displayed message,
so nothing is propagated to the caller — refuting the claimed
propagation.  The history is left unchanged (the reading is indeed
rejected). -/
theorem C6_error_not_propagated_counterexample :
    engineerReading ⟨0, 60, 12, 7⟩ = .error .divisionByZero ∧
    update_history classifyZero [] ⟨0, 60, 12, 7⟩ =
      .ok ([], some "Error updating history") := by
  refine ⟨?_, ?_⟩ <;> simp [engineerReading, update_history]

/-- Claim C6 (amended): for every reading with temperature 0, feature
engineering raises a `ZeroDivisionError` and the reading is rejected —
not appended to the history and not given a default ratio — but the
exception is caught inside `update_history` itself and surfaced as a
UI error message; `update_history` returns normally to its caller
rather than propagating the error. -/
theorem C6_zero_temperature_rejected (classify : List ℚ → String)
    (history : List Entry) (r : RawReading) (ht : r.temperature_C = 0) :
    engineerReading r = .error .divisionByZero ∧
    update_history classify history r =
      .ok (history, some "Error updating history") := by
  refine ⟨?_, ?_⟩ <;> simp [engineerReading, update_history, ht]

/-- Witness for the amended C6 at a concrete zero-temperature
reading. -/
theorem C6_zero_temperature_rejected_witness :
    (RawReading.mk 0 60 12 7).temperature_C = 0 ∧
    engineerReading ⟨0, 60, 12, 7⟩ = .error .divisionByZero ∧
    update_history classifyZero [] ⟨0, 60, 12, 7⟩ =
      .ok ([], some "Error updating history") :=
  ⟨rfl, (C6_zero_temperature_rejected classifyZero [] _ rfl).1,
    (C6_zero_temperature_rejected classifyZero [] _ rfl).2⟩

/-- Claim C3: the same-generation invariant.  If the stored detector
and threshold are of the same model generation, then after any
`detect_anomalies` call they still are, and any result produced by the
call carries a score and a threshold of the same generation — moreover
the score's generation is the current (post-call) fitted-model
generation, i.e. the latest entry is scored with the model of the most
recent retrain, never a staler one. -/
theorem C3_same_generation (f : List (List ℚ) → List ℚ → ℚ)
    (s : DetectorState) (data : List Reading) (retrain : Bool)
    (hg : s.fitGen = s.thresholdGen) :
    (detect_anomalies f s data retrain).1.fitGen =
      (detect_anomalies f s data retrain).1.thresholdGen ∧
    (detect_anomalies f s data retrain).2.elim True fun r =>
      r.scoreGen = r.thresholdGen ∧
      r.scoreGen = (detect_anomalies f s data retrain).1.fitGen := by
  unfold detect_anomalies
  by_cases h10 : data.length < 10
  · simp [h10, hg]
  · by_cases hre : (retrain || s.fittedX.isNone) = true
    · simp [h10, hre]
    · simp [h10, hre, hg]

/-- Witness for C3: the first full window from the fresh session, with
the non-vacuity of the result recorded. -/
theorem C3_same_generation_witness :
    initState.fitGen = initState.thresholdGen ∧
    ((detect_anomalies constScore initState w10 true).1.fitGen =
      (detect_anomalies constScore initState w10 true).1.thresholdGen ∧
     (detect_anomalies constScore initState w10 true).2.elim True fun r =>
       r.scoreGen = r.thresholdGen ∧
       r.scoreGen = (detect_anomalies constScore initState w10 true).1.fitGen) ∧
    (detect_anomalies constScore initState w10 true).2.isSome = true := by
  refine ⟨rfl, C3_same_generation constScore initState w10 true rfl, ?_⟩
  rw [detect_constScore_retrain w10 (by simp [w10])]
  rfl

/-- Claim C2: for a window of length at least 10 that is an exact
multiple of the retrain interval 10 — and likewise on a first call,
when no detector exists — the call refits the estimator on the full
accumulated window, recomputes the threshold as the 10th percentile of
the freshly fitted model's in-sample scores, publishes both under the
same new generation, and only then scores the single most recent entry
with the freshly fitted model against the fresh threshold. -/
theorem C2_retrain_recomputes_threshold (f : List (List ℚ) → List ℚ → ℚ)
    (s : DetectorState) (data : List Reading)
    (h10 : 10 ≤ data.length)
    (htrig : data.length % 10 = 0 ∨ s.fittedX = none) :
    observe f s data =
      ({ fittedX := some (data.map baseRow),
         threshold := calculate_anomaly_threshold
           ((data.map baseRow).map (f (data.map baseRow))),
         fitGen := s.fitGen + 1, thresholdGen := s.fitGen + 1 },
       some { is_anomaly := decide (f (data.map baseRow)
                (baseRow (data.getLast?.getD default)) <
                calculate_anomaly_threshold
                  ((data.map baseRow).map (f (data.map baseRow)))),
              anomaly_score := sigmoid (f (data.map baseRow)
                (baseRow (data.getLast?.getD default))),
              features := anomalyFeatures.map fun ft =>
                (ft, featFlag (data.map (featVal ft))
                  (featVal ft (data.getLast?.getD default))),
              rawScore := f (data.map baseRow)
                (baseRow (data.getLast?.getD default)),
              scoreGen := s.fitGen + 1, thresholdGen := s.fitGen + 1 }) := by
  have hn : ¬ data.length < 10 := by omega
  unfold observe detect_anomalies
  rw [if_pos h10, if_neg hn]
  rcases htrig with hmod | hnone
  · have hd : decide (data.length % 10 = 0) = true := by simp [hmod]
    simp [hd]
  · simp [hnone]

/-- Witness for C2: the first full window from the fresh session. -/
theorem C2_retrain_recomputes_threshold_witness :
    10 ≤ w10.length ∧ (w10.length % 10 = 0 ∨ initState.fittedX = none) ∧
    observe constScore initState w10 =
      ({ fittedX := some (w10.map baseRow),
         threshold := calculate_anomaly_threshold
           ((w10.map baseRow).map (constScore (w10.map baseRow))),
         fitGen := initState.fitGen + 1, thresholdGen := initState.fitGen + 1 },
       some { is_anomaly := decide (constScore (w10.map baseRow)
                (baseRow (w10.getLast?.getD default)) <
                calculate_anomaly_threshold
                  ((w10.map baseRow).map (constScore (w10.map baseRow)))),
              anomaly_score := sigmoid (constScore (w10.map baseRow)
                (baseRow (w10.getLast?.getD default))),
              features := anomalyFeatures.map fun ft =>
                (ft, featFlag (w10.map (featVal ft))
                  (featVal ft (w10.getLast?.getD default))),
              rawScore := constScore (w10.map baseRow)
                (baseRow (w10.getLast?.getD default)),
              scoreGen := initState.fitGen + 1,
              thresholdGen := initState.fitGen + 1 }) := by
  have h1 : 10 ≤ w10.length := by simp [w10]
  have h2 : w10.length % 10 = 0 := by simp [w10]
  exact ⟨h1, Or.inl h2,
    C2_retrain_recomputes_threshold constScore initState w10 h1 (Or.inl h2)⟩

/-- Claim C4 counterexample: at the first full window, the result's
published `anomaly_score` field is not the raw outlier score — the raw
score is 0 while the published field holds `sigmoid 0 = 1/2`.  The
field the claim calls the "score" carries only the sigmoid display
transform. -/
theorem C4_score_field_counterexample :
    (observe constScore initState w10).2.isSome = true ∧
    ((observe constScore initState w10).2.getD arDefault).anomaly_score ≠
      ((((observe constScore initState w10).2.getD arDefault).rawScore : ℚ) : ℝ) := by
  rw [observe_eq_detect_mod10 constScore initState w10 (by simp [w10]),
    detect_constScore_retrain w10 (by simp [w10])]
  refine ⟨rfl, ?_⟩
  show sigmoid 0 ≠ ((0 : ℚ) : ℝ)
  unfold sigmoid
  rw [show (-((0 : ℚ) : ℝ)) = 0 by norm_num, Real.exp_zero]
  norm_num

/-- Claim C4 (amended): for every window of length at least 10, the
result's `anomaly_score` field carries `sigmoid(score)` — a derived
display value — not the raw score itself, while `is_anomaly` is true
exactly when the raw outlier score of the latest entry is below the
current threshold.  Detection is decided by the raw score; the sigmoid
value carries no detection semantics. -/
theorem C4_sigmoid_display_raw_detection (f : List (List ℚ) → List ℚ → ℚ)
    (s : DetectorState) (data : List Reading) (retrain : Bool)
    (s' : DetectorState) (r : AnomalyResult)
    (h : detect_anomalies f s data retrain = (s', some r)) :
    r.anomaly_score = sigmoid r.rawScore ∧
    (r.is_anomaly = true ↔ r.rawScore < s'.threshold) := by
  unfold detect_anomalies at h
  by_cases h10 : data.length < 10
  · rw [if_pos h10] at h
    simp at h
  · rw [if_neg h10] at h
    rw [Prod.mk.injEq] at h
    obtain ⟨hs, hr⟩ := h
    rw [Option.some.injEq] at hr
    subst hs
    subst hr
    refine ⟨rfl, ?_⟩
    simp

/-- Witness for the amended C4 at the first full window. -/
theorem C4_sigmoid_display_raw_detection_witness :
    ((detect_anomalies constScore initState w10 true).2.getD arDefault).anomaly_score =
      sigmoid ((detect_anomalies constScore initState w10 true).2.getD arDefault).rawScore ∧
    (((detect_anomalies constScore initState w10 true).2.getD arDefault).is_anomaly = true ↔
      ((detect_anomalies constScore initState w10 true).2.getD arDefault).rawScore <
        (detect_anomalies constScore initState w10 true).1.threshold) := by
  have h := detect_constScore_retrain w10 (by simp [w10])
  have hc := C4_sigmoid_display_raw_detection constScore initState w10 true _ _ h
  rw [h]
  exact hc

/-- The temperature column of the C5 counterexample window: mean 30,
sum of squared deviations 60, so the sample standard deviation is
`√(60/9)` while the population standard deviation is `√(60/10)`. -/
def tempsC5 : List ℚ := [27, 27, 27, 32, 32, 30, 30, 30, 30, 35]

/-- A 10-reading window whose temperatures are `tempsC5` and whose
other features are constant; the latest reading has temperature 35,
exactly 5 away from the column mean. -/
def wC5 : List Reading := tempsC5.map fun t => ⟨t, 50, 10, 7, 0, 0⟩

/-- Modelled from the spec: the *population* variance of a feature
column claimed by C5 — sum of squared deviations divided by `n`.  The
code itself uses the pandas sample variance (`n - 1`); this definition
exists only to compare the two. -/
def populationVar (xs : List ℚ) : ℚ :=
  (xs.map (fun x => (x - listMean xs) ^ 2)).sum / xs.length

/-- Modelled from the spec: the population standard deviation claimed
by C5. -/
noncomputable def populationStd (xs : List ℚ) : ℝ :=
  Real.sqrt ((populationVar xs : ℚ) : ℝ)

/-- Claim C5 counterexample: on the `wC5` window the latest
temperature (35) deviates from the window mean (30) by 5, which is
more than twice the population standard deviation (`2·√6 ≈ 4.899`) —
so the claimed flag is true — yet the code's per-feature flag for
`temperature_C` is false, because pandas' `Series.std()` is the sample
standard deviation (`2·√(20/3) ≈ 5.164`).  The claim's
population-statistics reading is refuted at this input. -/
theorem C5_population_std_counterexample :
    (observe constScore initState wC5).2.isSome = true ∧
    ¬ (((observe constScore initState wC5).2.getD arDefault).features.getD 0
        ("", True)).2 ∧
    ((|(35 : ℚ) - listMean tempsC5| : ℚ) : ℝ) > 2 * populationStd tempsC5 := by
  have hlen : wC5.length = 10 := by simp [wC5, tempsC5]
  have hmean : listMean tempsC5 = 30 := by norm_num [listMean, tempsC5]
  rw [observe_eq_detect_mod10 constScore initState wC5 hlen,
    detect_constScore_retrain wC5 (by omega)]
  have hcol : wC5.map (featVal "temperature_C") = tempsC5 := by
    have hfun : (featVal "temperature_C" ∘ fun t : ℚ =>
        (⟨t, 50, 10, 7, 0, 0⟩ : Reading)) = id := by
      funext t
      simp [featVal, Function.comp]
    rw [wC5, List.map_map, hfun, List.map_id]
  have hlast : featVal "temperature_C" (wC5.getLast?.getD default) = 35 := by
    simp [wC5, tempsC5, featVal]
  refine ⟨rfl, ?_, ?_⟩
  · show ¬ ((anomalyFeatures.map fun ft =>
      (ft, featFlag (wC5.map (featVal ft))
        (featVal ft (wC5.getLast?.getD default)))).getD 0 ("", True)).2
    simp only [anomalyFeatures, List.map_cons, List.map_nil, List.getD_cons_zero]
    show ¬ featFlag (wC5.map (featVal "temperature_C"))
      (featVal "temperature_C" (wC5.getLast?.getD default))
    rw [hcol, hlast]
    unfold featFlag sampleStd
    have hvar : sampleVar tempsC5 = 20 / 3 := by
      norm_num [sampleVar, listMean, tempsC5]
    rw [hmean, hvar, not_lt, show |(35 : ℚ) - 30| = 5 from by norm_num]
    have hs := Real.sq_sqrt (show (0 : ℝ) ≤ ((20 / 3 : ℚ) : ℝ) by norm_num)
    have hnn := Real.sqrt_nonneg (((20 / 3 : ℚ) : ℝ))
    push_cast at hs hnn ⊢
    nlinarith [hs, hnn, sq_nonneg (2 * Real.sqrt (20 / 3 : ℝ) - 5)]
  · have hpv : populationVar tempsC5 = 6 := by
      norm_num [populationVar, listMean, tempsC5]
    unfold populationStd
    rw [hmean, hpv, show |(35 : ℚ) - 30| = 5 from by norm_num]
    have hs := Real.sq_sqrt (show (0 : ℝ) ≤ ((6 : ℚ) : ℝ) by norm_num)
    have hnn := Real.sqrt_nonneg (((6 : ℚ) : ℝ))
    push_cast at hs hnn ⊢
    nlinarith [hs, hnn, sq_nonneg (2 * Real.sqrt (6 : ℝ) - 5)]

/-- Claim C5 (amended): for every window of length at least 10, the
per-feature flag of the latest reading is true exactly when the
absolute deviation of its value from the feature's mean over the whole
current window exceeds 2 times the *sample* (Bessel-corrected,
`ddof = 1`) standard deviation of that feature over the whole current
window — sum of squared deviations divided by `n - 1` — with mean and
deviation recomputed from the current window (latest entry included)
on every call. -/
theorem C5_flags_use_sample_std (f : List (List ℚ) → List ℚ → ℚ)
    (s : DetectorState) (data : List Reading) (retrain : Bool)
    (s' : DetectorState) (r : AnomalyResult)
    (h : detect_anomalies f s data retrain = (s', some r)) :
    r.features = anomalyFeatures.map fun ft =>
      (ft, ((|featVal ft (data.getLast?.getD default) -
              listMean (data.map (featVal ft))| : ℚ) : ℝ) >
        2 * Real.sqrt (Rat.cast
          ((((data.map (featVal ft)).map fun x =>
              (x - listMean (data.map (featVal ft))) ^ 2).sum /
            (((data.map (featVal ft)).length : ℚ) - 1))))) := by
  unfold detect_anomalies at h
  by_cases h10 : data.length < 10
  · rw [if_pos h10] at h
    simp at h
  · rw [if_neg h10] at h
    rw [Prod.mk.injEq] at h
    obtain ⟨hs, hr⟩ := h
    rw [Option.some.injEq] at hr
    subst hr
    rfl

/-- Witness for the amended C5 at the first full window. -/
theorem C5_flags_use_sample_std_witness :
    ((detect_anomalies constScore initState w10 true).2.getD arDefault).features =
      anomalyFeatures.map fun ft =>
        (ft, ((|featVal ft (w10.getLast?.getD default) -
                listMean (w10.map (featVal ft))| : ℚ) : ℝ) >
          2 * Real.sqrt (Rat.cast
            ((((w10.map (featVal ft)).map fun x =>
                (x - listMean (w10.map (featVal ft))) ^ 2).sum /
              (((w10.map (featVal ft)).length : ℚ) - 1))))) := by
  have h := detect_constScore_retrain w10 (by simp [w10])
  have hc := C5_flags_use_sample_std constScore initState w10 true _ _ h
  rw [h]
  exact hc

/-! Helpers for C9: each of the four anomaly-feature columns is a
projection of the base-feature row, so any two windows with the same
base rows have the same columns. -/

lemma map_comp_baseRow {data data' : List Reading} (g : List ℚ → ℚ)
    (hbase : data.map baseRow = data'.map baseRow) :
    data.map (g ∘ baseRow) = data'.map (g ∘ baseRow) := by
  rw [← List.map_map, hbase, List.map_map]

lemma featVal_comp_temp :
    featVal "temperature_C" = (fun l : List ℚ => l.getD 0 0) ∘ baseRow := by
  funext r; rfl

lemma featVal_comp_hum :
    featVal "humidity_%" = (fun l : List ℚ => l.getD 1 0) ∘ baseRow := by
  funext r; rfl

lemma featVal_comp_amm :
    featVal "ammonia_ppm" = (fun l : List ℚ => l.getD 2 0) ∘ baseRow := by
  funext r; rfl

lemma featVal_comp_ph :
    featVal "ph" = (fun l : List ℚ => l.getD 3 0) ∘ baseRow := by
  funext r; rfl

/-- A reading with the same four base sensor values as `sampleReading`
but different engineered-column values. -/
def sampleReadingE : Reading := ⟨30, 60, 12, 7, 99, 77⟩

/-- Ten copies of `sampleReadingE`: agrees with `w10` on every base
feature column while differing on the engineered columns. -/
def w10e : List Reading := List.replicate 10 sampleReadingE

/-- Claim C9: the outlier model sees only the four base feature
columns — two windows that agree on `temperature_C`, `humidity_%`,
`ammonia_ppm` and `ph` produce identical detector states and results,
whatever their engineered-column values are — and every result's
per-feature flag map has exactly those four keys. -/
theorem C9_model_sees_only_base_features (f : List (List ℚ) → List ℚ → ℚ)
    (s : DetectorState) (data data' : List Reading) (retrain : Bool)
    (hbase : data.map baseRow = data'.map baseRow) :
    detect_anomalies f s data retrain = detect_anomalies f s data' retrain ∧
    (detect_anomalies f s data retrain).2.elim True fun r =>
      r.features.map Prod.fst =
        ["temperature_C", "humidity_%", "ammonia_ppm", "ph"] := by
  have hlen : data.length = data'.length := by
    have h := congrArg List.length hbase
    simpa using h
  have c1 : data.map (featVal "temperature_C") =
      data'.map (featVal "temperature_C") := by
    rw [featVal_comp_temp]; exact map_comp_baseRow _ hbase
  have c2 : data.map (featVal "humidity_%") =
      data'.map (featVal "humidity_%") := by
    rw [featVal_comp_hum]; exact map_comp_baseRow _ hbase
  have c3 : data.map (featVal "ammonia_ppm") =
      data'.map (featVal "ammonia_ppm") := by
    rw [featVal_comp_amm]; exact map_comp_baseRow _ hbase
  have c4 : data.map (featVal "ph") = data'.map (featVal "ph") := by
    rw [featVal_comp_ph]; exact map_comp_baseRow _ hbase
  have hm : data.getLast?.map baseRow = data'.getLast?.map baseRow := by
    rw [← List.getLast?_map, ← List.getLast?_map, hbase]
  constructor
  · rcases hd : data.getLast? with _ | a
    · rw [hd] at hm
      have hd' : data'.getLast? = none := Option.map_eq_none'.mp hm.symm
      simp only [detect_anomalies, anomalyFeatures, List.map_cons,
        List.map_nil, hd, hd']
      rw [hlen, hbase, c1, c2, c3, c4]
    · rw [hd] at hm
      rcases hd' : data'.getLast? with _ | b
      · rw [hd'] at hm
        simp at hm
      · rw [hd'] at hm
        simp only [Option.map_some'] at hm
        have hab : baseRow a = baseRow b := by
          injection hm
        have g1 : featVal "temperature_C" a = featVal "temperature_C" b := by
          rw [featVal_comp_temp]
          simp only [Function.comp_apply]
          rw [hab]
        have g2 : featVal "humidity_%" a = featVal "humidity_%" b := by
          rw [featVal_comp_hum]
          simp only [Function.comp_apply]
          rw [hab]
        have g3 : featVal "ammonia_ppm" a = featVal "ammonia_ppm" b := by
          rw [featVal_comp_amm]
          simp only [Function.comp_apply]
          rw [hab]
        have g4 : featVal "ph" a = featVal "ph" b := by
          rw [featVal_comp_ph]
          simp only [Function.comp_apply]
          rw [hab]
        simp only [detect_anomalies, anomalyFeatures, List.map_cons,
          List.map_nil, hd, hd', Option.getD_some]
        rw [hlen, hbase, c1, c2, c3, c4, g1, g2, g3, g4, hab]
  · by_cases h10 : data.length < 10
    · simp [detect_anomalies, h10]
    · simp [detect_anomalies, h10, anomalyFeatures, List.map_map,
        Function.comp]

/-- Witness for C9: `w10` and `w10e` differ in their engineered
columns yet produce identical results, with the four flag keys. -/
theorem C9_model_sees_only_base_features_witness :
    w10.map baseRow = w10e.map baseRow ∧
    (detect_anomalies constScore initState w10 true =
       detect_anomalies constScore initState w10e true ∧
     (detect_anomalies constScore initState w10 true).2.elim True fun r =>
       r.features.map Prod.fst =
         ["temperature_C", "humidity_%", "ammonia_ppm", "ph"]) ∧
    (detect_anomalies constScore initState w10 true).2.isSome = true := by
  have hb : w10.map baseRow = w10e.map baseRow := by
    simp [w10, w10e, baseRow, sampleReading, sampleReadingE]
  refine ⟨hb,
    C9_model_sees_only_base_features constScore initState w10 w10e true hb, ?_⟩
  rw [detect_constScore_retrain w10 (by simp [w10])]
  rfl

/-- Stand-in external model artifacts for the C8 witness. -/
def mZero : ExternalModels :=
  { scaleRow := id, predictProba := fun _ => [],
    anomalyScore := fun _ => 0, anomalyPredict := fun _ => 1 }

/-- The natural feature configuration of the model artifacts: four
base features plus the two engineered ones. -/
def cfgStd : FeatureConfig :=
  { feature_names := ["temperature_C", "humidity_%", "ammonia_ppm", "ph"],
    engineered_features := ["temp_humidity_interaction", "ammonia_temp_ratio"] }

/-- A reading dict (already in internal column names) lacking the
required `ph` column. -/
def readingNoPh : Row :=
  [("temperature_C", 32), ("humidity_%", 65), ("ammonia_ppm", 22)]

/-- The frame obtained from `readingNoPh` after engineering. -/
def dfNoPh : Row :=
  readingNoPh ++
    [("temp_humidity_interaction", 32 * 65 / 100),
     ("ammonia_temp_ratio", 22 / 32)]

/-- Claim C8: if, after the engineering step, some required feature
(any name in `feature_names ++ engineered_features`) is absent from
the prepared frame, `prepare_features` fails with the
missing-features error, `explain_prediction` re-raises it unchanged
(raised, not swallowed), and the caller's guarded analysis block
degrades gracefully — it returns normally with the explanation
skipped, so the monitoring loop continues. -/
theorem C8_missing_feature_error_graceful (m : ExternalModels)
    (cfg : FeatureConfig) (reading : Row) (df : Row) (ft : String)
    (heng : addEngineered (renameCols reading) = .ok df)
    (hreq : ft ∈ cfg.feature_names ++ cfg.engineered_features)
    (habs : (df.lookup ft).isNone = true) :
    ft ∈ (cfg.feature_names ++ cfg.engineered_features).filter
      (fun g => (df.lookup g).isNone) ∧
    prepare_features cfg reading = .error (.missingFeatures
      ((cfg.feature_names ++ cfg.engineered_features).filter
        (fun g => (df.lookup g).isNone))) ∧
    explain_prediction m cfg reading = .error (.missingFeatures
      ((cfg.feature_names ++ cfg.engineered_features).filter
        (fun g => (df.lookup g).isNone))) ∧
    analysisBlock m cfg reading = .ok none := by
  have hmem : ft ∈ (cfg.feature_names ++ cfg.engineered_features).filter
      (fun g => (df.lookup g).isNone) :=
    List.mem_filter.mpr ⟨hreq, habs⟩
  have hne : (cfg.feature_names ++ cfg.engineered_features).filter
      (fun g => (df.lookup g).isNone) ≠ [] := List.ne_nil_of_mem hmem
  have hred : prepare_features cfg reading =
      if (cfg.feature_names ++ cfg.engineered_features).filter
          (fun g => (df.lookup g).isNone) ≠ [] then
        .error (.missingFeatures
          ((cfg.feature_names ++ cfg.engineered_features).filter
            (fun g => (df.lookup g).isNone)))
      else .ok ((cfg.feature_names ++ cfg.engineered_features).map
        fun g => (g, (df.lookup g).getD 0)) := by
    unfold prepare_features
    rw [heng]
  have hprep : prepare_features cfg reading = .error (.missingFeatures
      ((cfg.feature_names ++ cfg.engineered_features).filter
        (fun g => (df.lookup g).isNone))) := by
    rw [hred, if_pos hne]
  have hexp : explain_prediction m cfg reading = .error (.missingFeatures
      ((cfg.feature_names ++ cfg.engineered_features).filter
        (fun g => (df.lookup g).isNone))) := by
    unfold explain_prediction
    rw [hprep]
  refine ⟨hmem, hprep, hexp, ?_⟩
  unfold analysisBlock
  rw [hexp]

/-- Witness for C8: a reading lacking `ph` under the standard feature
configuration. -/
theorem C8_missing_feature_error_graceful_witness :
    addEngineered (renameCols readingNoPh) = .ok dfNoPh ∧
    "ph" ∈ cfgStd.feature_names ++ cfgStd.engineered_features ∧
    (dfNoPh.lookup "ph").isNone = true ∧
    "ph" ∈ (cfgStd.feature_names ++ cfgStd.engineered_features).filter
      (fun g => (dfNoPh.lookup g).isNone) ∧
    prepare_features cfgStd readingNoPh = .error (.missingFeatures
      ((cfgStd.feature_names ++ cfgStd.engineered_features).filter
        (fun g => (dfNoPh.lookup g).isNone))) ∧
    explain_prediction mZero cfgStd readingNoPh = .error (.missingFeatures
      ((cfgStd.feature_names ++ cfgStd.engineered_features).filter
        (fun g => (dfNoPh.lookup g).isNone))) ∧
    analysisBlock mZero cfgStd readingNoPh = .ok none := by
  have h1 : addEngineered (renameCols readingNoPh) = .ok dfNoPh := by rfl
  have h2 : "ph" ∈ cfgStd.feature_names ++ cfgStd.engineered_features := by decide
  have h3 : (dfNoPh.lookup "ph").isNone = true := by decide
  have hc := C8_missing_feature_error_graceful mZero cfgStd readingNoPh dfNoPh
    "ph" h1 h2 h3
  exact ⟨h1, h2, h3, hc.1, hc.2.1, hc.2.2.1, hc.2.2.2⟩

/-- Claim C10: with `n = data.length`, when `n ≥ sequence_length +
prediction_length` the builder returns exactly
`n - sequence_length - prediction_length + 1` pairs; the `i`-th input
is the `sequence_length` consecutive points starting at `i`, the `i`-th
target the `prediction_length` points immediately following them
(together they form one contiguous slice); below the bound both arrays
are empty. -/
theorem C10_create_sequences_slices {α : Type} (sl pl : ℕ) (data : List α) :
    (sl + pl ≤ data.length →
      (create_sequences sl pl data).1.length = data.length - sl - pl + 1 ∧
      (create_sequences sl pl data).2.length = data.length - sl - pl + 1 ∧
      ∀ i, i < data.length - sl - pl + 1 →
        (create_sequences sl pl data).1.getD i [] = (data.drop i).take sl ∧
        (create_sequences sl pl data).2.getD i [] = (data.drop (i + sl)).take pl ∧
        (data.drop i).take sl ++ (data.drop (i + sl)).take pl =
          (data.drop i).take (sl + pl)) ∧
    (data.length < sl + pl → create_sequences sl pl data = ([], [])) := by
  constructor
  · intro hle
    have hcount : ((data.length : ℤ) - sl - pl + 1).toNat =
        data.length - sl - pl + 1 := by omega
    refine ⟨by simp [create_sequences, hcount], by simp [create_sequences, hcount], ?_⟩
    intro i hi
    refine ⟨?_, ?_, ?_⟩
    · simp [create_sequences, hcount, List.getD_eq_getElem?_getD,
        List.getElem?_map, List.getElem?_range, hi]
    · simp [create_sequences, hcount, List.getD_eq_getElem?_getD,
        List.getElem?_map, List.getElem?_range, hi]
    · rw [← List.drop_drop, ← List.take_add]
  · intro hlt
    have hcount : ((data.length : ℤ) - sl - pl + 1).toNat = 0 := by omega
    simp [create_sequences, hcount]

/-- Witness for C10 on the 4-point series `[0, 1, 2, 3]` with
`sequence_length = 2`, `prediction_length = 1`. -/
theorem C10_create_sequences_slices_witness :
    2 + 1 ≤ ([0, 1, 2, 3] : List ℕ).length ∧
    (create_sequences 2 1 ([0, 1, 2, 3] : List ℕ)).1.length =
      [0, 1, 2, 3].length - 2 - 1 + 1 ∧
    (0 : ℕ) < [0, 1, 2, 3].length - 2 - 1 + 1 ∧
    (create_sequences 2 1 ([0, 1, 2, 3] : List ℕ)).1.getD 0 [] =
      (([0, 1, 2, 3] : List ℕ).drop 0).take 2 ∧
    (create_sequences 2 1 ([0, 1, 2, 3] : List ℕ)).2.getD 0 [] =
      (([0, 1, 2, 3] : List ℕ).drop (0 + 2)).take 1 := by
  have h := (C10_create_sequences_slices 2 1 ([0, 1, 2, 3] : List ℕ)).1 (by decide)
  exact ⟨by decide, h.1, by decide, (h.2.2 0 (by decide)).1, (h.2.2 0 (by decide)).2.1⟩

end Poultry
